import Mathlib

/-!
# ospTutorial.c : the PPM writer and the scene set-up of `main`

A shallow embedding of `src/ospTutorial.c`.

* `writePPM` is embedded as a function from its arguments to the bytes it
  writes.  `int` arithmetic is checked: a signed overflow is undefined
  behaviour in C and makes the model return `none`, and so does a read or a
  write outside an array and an `alloca` request larger than the stack space
  that is left.
* `main` is embedded as the sequence of calls it makes into the rendering
  library.  The library itself is external to the program; its factory calls
  are modelled as returning fresh handles and every call is recorded in a log,
  which the properties of `main` are read from.
* `float` values are modelled by the rational numbers their source expressions
  denote; rounding is not modelled.
-/

namespace OspTutorial

/-! ## Machine integers and memory -/

/-- One `unsigned char`. -/
abbrev Byte := Fin 256

/-- Largest value of a C `int` (32 bit). -/
def INT_MAX : Int := 2147483647

/-- Smallest value of a C `int` (32 bit). -/
def INT_MIN : Int := -2147483648

/-- Result of an `int` operation whose mathematical value is `r`:
signed overflow is undefined behaviour. -/
def checkInt (r : Int) : Option Int :=
  if INT_MIN ≤ r ∧ r ≤ INT_MAX then some r else none

/-- The scratch row `out`: a cell is `none` while it is still uninitialised. -/
abbrev Row := List (Option Byte)

/-- The call `alloca(n)` for an `int` expression `n`: a block of `n`
uninitialised bytes taken from the stack.  `stack` is the number of bytes the
stack can still take at the call (beyond what the later calls of the function
need).  The source does not check the request: one that is larger overruns
the stack, and a negative `n` would be converted to a huge `size_t`; the
model fails in both cases. -/
def alloca (stack : Nat) (n : Int) : Option Row :=
  if 0 ≤ n ∧ n.toNat ≤ stack then some (List.replicate n.toNat none) else none

/-- Read `base[i]` from the byte array `mem`, where `base` is the byte offset
`off` into `mem`. -/
def readByte (mem : List Byte) (off : Int) (i : Int) : Option Byte :=
  if 0 ≤ off + i then mem[(off + i).toNat]? else none

/-- The assignment `out[i] = b`. -/
def writeCell (out : Row) (i : Int) (b : Byte) : Option Row :=
  if 0 ≤ i ∧ i.toNat < out.length then some (out.set i.toNat (some b)) else none

/-- All cells of a row, provided every one of them has been written. -/
def initialised : Row → Option (List Byte)
  | [] => some []
  | none :: _ => none
  | some b :: t => (initialised t).map (fun r => b :: r)

/-- The call `fwrite(out, n, sizeof(char), file)`: one item of `n` bytes is
appended to the file. -/
def fwrite (out : Row) (n : Int) (file : List Byte) : Option (List Byte) :=
  if 0 ≤ n ∧ n.toNat ≤ out.length then
    (initialised (out.take n.toNat)).map (fun r => file ++ r)
  else none

/-- Bytes of an ASCII string. -/
def strBytes (s : String) : List Byte :=
  s.toList.map (fun c => Fin.ofNat c.toNat)

/-- The call `fprintf(file, "P6\n%i %i\n255\n", size_x, size_y)`. -/
def ppmHeader (size_x size_y : Int) : List Byte :=
  strBytes ("P6\n" ++ toString size_x ++ " " ++ toString size_y ++ "\n255\n")

/-! ## writePPM -/

/-- The assignment `out[3 * x + c] = in[4 * x + c]`, where `in` is the byte
offset `inOff` into `pixel`. -/
def copyChannel (pixel : List Byte) (inOff : Int) (x c : Int) (out : Row) : Option Row := do
  let o ← checkInt (3 * x)
  let o ← checkInt (o + c)
  let i ← checkInt (4 * x)
  let i ← checkInt (i + c)
  let b ← readByte pixel inOff i
  writeCell out o b

/-- One pass of the body of the inner loop: the three assignments
`out[3 * x + c] = in[4 * x + c]` for `c = 0, 1, 2`. -/
def copyPixel (pixel : List Byte) (inOff : Int) (x : Int) (out : Row) : Option Row := do
  let out ← copyChannel pixel inOff x 0 out
  let out ← copyChannel pixel inOff x 1 out
  copyChannel pixel inOff x 2 out

/-- The loop `for (int x = 0; x < size_x; x++)`, entered at `x`.  The first
argument bounds the number of passes; running out of it yields `none`. -/
def xLoop (pixel : List Byte) (inOff : Int) (size_x : Int) : Nat → Int → Row → Option Row
  | 0, x, out => if x < size_x then none else some out
  | fuel + 1, x, out =>
    if x < size_x then do
      let out ← copyPixel pixel inOff x out
      let x ← checkInt (x + 1)
      xLoop pixel inOff size_x fuel x out
    else some out

/-- The loop `for (int y = 0; y < size_y; y++)`, entered at `y` with the
scratch row `out` and the bytes `file` written so far. -/
def yLoop (pixel : List Byte) (size_x size_y : Int) :
    Nat → Int → Row → List Byte → Option (List Byte)
  | 0, y, _, file => if y < size_y then none else some file
  | fuel + 1, y, out, file =>
    if y < size_y then do
      let r ← checkInt (size_y - 1)
      let r ← checkInt (r - y)
      let k ← checkInt (r * size_x)
      let out ← xLoop pixel (4 * k) size_x size_x.toNat 0 out
      let n ← checkInt (3 * size_x)
      let file ← fwrite out n file
      let y ← checkInt (y + 1)
      yLoop pixel size_x size_y fuel y out file
    else some file

/-- The body of `writePPM` once the file is open: the bytes written to the
file, or `none` when the execution is undefined.  `pixel` is the memory the
pointer `pixel` points to, as bytes, and `stack` the stack space left for
`alloca`. -/
def writePPMFile (stack : Nat) (size_x size_y : Int) (pixel : List Byte) :
    Option (List Byte) := do
  let file := ppmHeader size_x size_y
  let n ← checkInt (3 * size_x)
  let out ← alloca stack n
  let file ← yLoop pixel size_x size_y size_y.toNat 0 out file
  pure (file ++ strBytes "\n")

/-- The function `writePPM`.  `stack` is the stack space left for `alloca` and
`fopenOk` tells whether `fopen` succeeds; when it does not, nothing is written
(`some none`). -/
def writePPM (stack : Nat) (fopenOk : Bool) (size_x size_y : Int) (pixel : List Byte) :
    Option (Option (List Byte)) :=
  if fopenOk then (writePPMFile stack size_x size_y pixel).map some else some none

/-! ## What `writePPM` is expected to write -/

/-- Channel `c` of the pixel in column `x` of input row `r`. -/
def pixelByte (pixel : List Byte) (size_x : Nat) (r x c : Nat) : Byte :=
  pixel.getD (4 * (r * size_x) + (4 * x + c)) 0

/-- The three colour bytes of the pixel in column `x` of input row `r`. -/
def rgbOf (pixel : List Byte) (size_x : Nat) (r x : Nat) : List Byte :=
  [pixelByte pixel size_x r x 0, pixelByte pixel size_x r x 1, pixelByte pixel size_x r x 2]

/-- Output row made from input row `r`. -/
def rowOf (pixel : List Byte) (size_x : Nat) (r : Nat) : List Byte :=
  (List.range size_x).flatMap (rgbOf pixel size_x r)

/-- The image body: output row `y` is made from input row `size_y - 1 - y`. -/
def flippedBody (pixel : List Byte) (size_x size_y : Nat) : List Byte :=
  (List.range size_y).flatMap (fun y => rowOf pixel size_x (size_y - 1 - y))

/-! ## The arrays of `main` -/

/-- The array `vertex`. -/
def vertex : List ℚ := [-1.0, -1.0, 3.0, -1.0, 1.0, 3.0, 1.0, -1.0, 3.0, 0.1, 0.1, 0.3]

/-- The array `color`. -/
def color : List ℚ :=
  [0.9, 0.5, 0.5, 1.0, 0.8, 0.8, 0.8, 1.0, 0.8, 0.8, 0.8, 1.0, 0.5, 0.9, 0.5, 1.0]

/-- The array `index`. -/
def index : List Int := [0, 1, 2, 1, 2, 3]

/-- The array `opacity` after the seven assignments that follow its declaration
`float opacity[52] = {0}`. -/
def opacity : List ℚ :=
  (((((((List.replicate 52 (0 : ℚ)).set 17 1.0).set 18 1.0).set 19 1.0).set 20 1.0).set 21
    1.0).set 22 1.0).set 23 1.0

/-- The array `tf_color` after the assignments that follow its declaration
`float tf_color[52*3] = {0}`. -/
def tf_color : List ℚ :=
  (((((((((((((((((((((List.replicate (52 * 3) (0 : ℚ)).set (17 * 3) (255.0 / 255.0)).set
    (17 * 3 + 1) (30.0 / 255.0)).set (17 * 3 + 2) (60.0 / 255.0)).set
    (18 * 3) (255.0 / 255.0)).set (18 * 3 + 1) (30.0 / 255.0)).set (18 * 3 + 2) (60.0 / 255.0)).set
    (19 * 3) (10.0 / 255.0)).set (19 * 3 + 1) (60.0 / 255.0)).set (19 * 3 + 2) (180.0 / 255.0)).set
    (20 * 3) (10.0 / 255.0)).set (20 * 3 + 1) (60.0 / 255.0)).set (20 * 3 + 2) (180.0 / 255.0)).set
    (21 * 3) (10.0 / 255.0)).set (21 * 3 + 1) (60.0 / 255.0)).set (21 * 3 + 2) (180.0 / 255.0)).set
    (22 * 3) (90.0 / 255.0)).set (22 * 3 + 1) (210.0 / 255.0)).set (22 * 3 + 2) (20.0 / 255.0)).set
    (23 * 3) (90.0 / 255.0)).set (23 * 3 + 1) (210.0 / 255.0)).set (23 * 3 + 2) (20.0 / 255.0)

/-- The value of `sizeof(float)`. -/
def sizeof_float : Int := 4

/-- The local `elements`: `sizeof(opacity)/sizeof(opacity[0])`. -/
def elements : Int := (sizeof_float * opacity.length) / sizeof_float

/-- The local `elements_col`: `sizeof(tf_color)/sizeof(tf_color[0])/3`. -/
def elements_col : Int := (sizeof_float * tf_color.length) / sizeof_float / 3



/-! ## The library calls of `main` -/

/-- An object handle returned by the library. -/
abbrev Handle := Nat

/-- Modelled from the spec: the object kinds of the rendering library (its
factory functions are declared in the library headers, not in this program). -/
inductive Kind
  | camera | geometry | data | material | geometricModel | volume | transferFunction
  | volumetricModel | group | instance_ | world | light | renderer | frameBuffer
  deriving DecidableEq, Repr

/-- Modelled from the spec: the element type tags (`OSPDataType`) that `main`
uses; the enumeration is declared in the library headers. -/
inductive OSPDataType
  | OSP_UCHAR | OSP_FLOAT | OSP_VEC3F | OSP_VEC4F | OSP_VEC3UI
  | OSP_VOLUMETRIC_MODEL | OSP_INSTANCE | OSP_LIGHT
  deriving DecidableEq, Repr

/-- Modelled from the spec: the component count of an element type (scalar or
vector of 3 or 4 components; an object handle is one component). -/
def OSPDataType.components : OSPDataType → Nat
  | .OSP_UCHAR => 1
  | .OSP_FLOAT => 1
  | .OSP_VEC3F => 3
  | .OSP_VEC4F => 4
  | .OSP_VEC3UI => 3
  | .OSP_VOLUMETRIC_MODEL => 1
  | .OSP_INSTANCE => 1
  | .OSP_LIGHT => 1

/-- The stack arrays of `main` that back shared data. -/
inductive Arr
  | vertex | color | index | opacity | tf_color
  deriving DecidableEq, Repr

/-- Number of elements of a stack array. -/
def Arr.length : Arr → Nat
  | .vertex => OspTutorial.vertex.length
  | .color => OspTutorial.color.length
  | .index => OspTutorial.index.length
  | .opacity => OspTutorial.opacity.length
  | .tf_color => OspTutorial.tf_color.length

/-- One call of `main` into the library; a factory call carries the handle it
returned as last field.  `writePPM` is the call of the local function of that
name.  `releasePickInstance` and `releasePickModel` are the calls
`ospRelease(p.instance)` and `ospRelease(p.model)`: they give back the
references that `ospPick` stored in its result, not handles obtained from a
factory call. -/
inductive Call
  | init
  | newCamera (type : String) (h : Handle)
  | newGeometry (type : String) (h : Handle)
  | newSharedData1D (arr : Arr) (type : OSPDataType) (numItems : Int) (h : Handle)
  | newSharedData (bufferOffset : Int) (type : OSPDataType)
      (numItems1 byteStride1 numItems2 byteStride2 numItems3 byteStride3 : Int) (h : Handle)
  | newMaterial (rendererType materialType : String) (h : Handle)
  | newGeometricModel (geometry : Handle) (h : Handle)
  | newVolume (type : String) (h : Handle)
  | newTransferFunction (type : String) (h : Handle)
  | newVolumetricModel (volume : Handle) (h : Handle)
  | newGroup (h : Handle)
  | newInstance (group : Handle) (h : Handle)
  | newWorld (h : Handle)
  | newLight (type : String) (h : Handle)
  | newRenderer (type : String) (h : Handle)
  | newFrameBuffer (size_x size_y : Int) (format : String) (channels : List String) (h : Handle)
  | setFloat (obj : Handle) (id : String) (x : ℚ)
  | setParam (obj : Handle) (id : String) (type : OSPDataType) (mem : List ℚ)
  | setObject (obj : Handle) (id : String) (value : Handle)
  | setObjectAsData (obj : Handle) (id : String) (type : OSPDataType) (value : Handle)
  | commit (obj : Handle)
  | release (obj : Handle)
  | getBounds (world : Handle)
  | resetAccumulation (fb : Handle)
  | renderFrameBlocking (fb renderer camera world : Handle)
  | mapFrameBuffer (fb : Handle)
  | writePPM (fileName : String) (size_x size_y : Int)
  | unmapFrameBuffer (fb : Handle)
  | pick (fb renderer camera world : Handle) (screenPos_x screenPos_y : ℚ)
  | releasePickInstance
  | releasePickModel
  | shutdown

/-- State of a run: the next fresh handle and the calls made so far. -/
structure Log where
  next : Handle
  calls : List Call

/-- Programs that call the library. -/
abbrev OSP := StateM Log

/-- Record a call. -/
def call (c : Call) : OSP Unit
  | ⟨next, calls⟩ => ((), ⟨next, calls ++ [c]⟩)

/-- Record a factory call and return the fresh handle it yields. -/
def factory (mk : Handle → Call) : OSP Handle
  | ⟨next, calls⟩ => (next, ⟨next + 1, calls ++ [mk next]⟩)

/-- The value `OSP_NO_ERROR`. -/
def OSP_NO_ERROR : Int := 0

/-- The loop `for (int frames = 0; frames < 10; frames++)` of `main`, entered at
`frames`.  The first argument bounds the number of passes; the result tells
whether the loop ended within it. -/
def renderLoop (framebuffer renderer camera world : Handle) : Nat → Int → OSP Bool
  | 0, frames => pure (decide (¬ frames < 10))
  | fuel + 1, frames =>
    if frames < 10 then do
      call (.renderFrameBlocking framebuffer renderer camera world)
      renderLoop framebuffer renderer camera world fuel (frames + 1)
    else pure true

/-- The function `main`, as the library calls it makes; console output and the
reading of the volume file are left out.  `init_error` is what `ospInit`
returns.  The result is the exit code, or `none` if the render loop did not
end. -/
def main (init_error : Int) : OSP (Option Int) := do
  let imgSize_x : Int := 700
  let imgSize_y : Int := 700
  let cam_pos : List ℚ := [849.85864, 812.4856, 883.1134]
  let cam_up : List ℚ := [0.0, 1.0, 0.0]
  let cam_view : List ℚ := [-0.57735026, -0.57735026, -0.57735026]
  call .init
  if init_error ≠ OSP_NO_ERROR then
    return some init_error
  let camera ← factory (.newCamera "perspective")
  call (.setFloat camera "aspect" ((imgSize_x : ℚ) / (imgSize_y : ℚ)))
  call (.setParam camera "position" .OSP_VEC3F cam_pos)
  call (.setParam camera "direction" .OSP_VEC3F cam_view)
  call (.setParam camera "up" .OSP_VEC3F cam_up)
  call (.commit camera)
  let mesh ← factory (.newGeometry "mesh")
  let data ← factory (.newSharedData1D .vertex .OSP_VEC3F 4)
  call (.commit data)
  call (.setObject mesh "vertex.position" data)
  call (.release data)
  let data ← factory (.newSharedData1D .color .OSP_VEC4F 4)
  call (.commit data)
  call (.setObject mesh "vertex.color" data)
  call (.release data)
  let data ← factory (.newSharedData1D .index .OSP_VEC3UI 2)
  call (.commit data)
  call (.setObject mesh "index" data)
  call (.release data)
  call (.commit mesh)
  let mat ← factory (.newMaterial "" "obj")
  call (.commit mat)
  let model ← factory (.newGeometricModel mesh)
  call (.setObject model "material" mat)
  call (.commit model)
  call (.release mesh)
  call (.release mat)
  let vol ← factory (.newVolume "structuredRegular")
  let vol_data ← factory (.newSharedData 26 .OSP_UCHAR 800 0 800 0 800 0)
  call (.commit vol_data)
  call (.setObject vol "data" vol_data)
  call (.release vol_data)
  call (.commit vol)
  let tf ← factory (.newTransferFunction "piecewiseLinear")
  let data ← factory (.newSharedData1D .opacity .OSP_FLOAT elements)
  call (.commit data)
  call (.setObject tf "opacity" data)
  call (.release data)
  let data ← factory (.newSharedData1D .tf_color .OSP_VEC3F elements_col)
  call (.commit data)
  call (.setObject tf "color" data)
  call (.release data)
  call (.commit tf)
  let vol_model ← factory (.newVolumetricModel vol)
  call (.setObject vol_model "transferFunction" tf)
  call (.commit vol_model)
  let group ← factory .newGroup
  call (.setObjectAsData group "volume" .OSP_VOLUMETRIC_MODEL vol_model)
  call (.commit group)
  call (.release model)
  let instance_ ← factory (.newInstance group)
  call (.commit instance_)
  call (.release group)
  let world ← factory .newWorld
  call (.setObjectAsData world "instance" .OSP_INSTANCE instance_)
  call (.release instance_)
  let light ← factory (.newLight "ambient")
  call (.commit light)
  call (.setObjectAsData world "light" .OSP_LIGHT light)
  call (.release light)
  call (.commit world)
  call (.getBounds world)
  let renderer ← factory (.newRenderer "ao")
  call (.setFloat renderer "volumeSamplingRate" 50.0)
  call (.commit renderer)
  let framebuffer ← factory
    (.newFrameBuffer imgSize_x imgSize_y "OSP_FB_SRGBA" ["OSP_FB_COLOR", "OSP_FB_ACCUM"])
  call (.resetAccumulation framebuffer)
  call (.renderFrameBlocking framebuffer renderer camera world)
  call (.mapFrameBuffer framebuffer)
  call (.writePPM "firstFrame.ppm" imgSize_x imgSize_y)
  call (.unmapFrameBuffer framebuffer)
  let ended ← renderLoop framebuffer renderer camera world 10 0
  if !ended then
    return none
  call (.mapFrameBuffer framebuffer)
  call (.writePPM "accumulatedFrame.ppm" imgSize_x imgSize_y)
  call (.unmapFrameBuffer framebuffer)
  call (.pick framebuffer renderer camera world 0.5 0.5)
  call .releasePickInstance
  call .releasePickModel
  call (.release renderer)
  call (.release camera)
  call (.release framebuffer)
  call (.release world)
  call .shutdown
  return some 0

/-- The calls of a run of `main` in which `ospInit` succeeds. -/
def mainCalls : List Call := ((main OSP_NO_ERROR).run { next := 0, calls := [] }).2.calls


/-! ## Reading the log -/

/-- The kind and the handle that a factory call yields. -/
def Call.created : Call → Option (Kind × Handle)
  | .newCamera _ h => some (.camera, h)
  | .newGeometry _ h => some (.geometry, h)
  | .newSharedData1D _ _ _ h => some (.data, h)
  | .newSharedData _ _ _ _ _ _ _ _ h => some (.data, h)
  | .newMaterial _ _ h => some (.material, h)
  | .newGeometricModel _ h => some (.geometricModel, h)
  | .newVolume _ h => some (.volume, h)
  | .newTransferFunction _ h => some (.transferFunction, h)
  | .newVolumetricModel _ h => some (.volumetricModel, h)
  | .newGroup h => some (.group, h)
  | .newInstance _ h => some (.instance_, h)
  | .newWorld h => some (.world, h)
  | .newLight _ h => some (.light, h)
  | .newRenderer _ h => some (.renderer, h)
  | .newFrameBuffer _ _ _ _ h => some (.frameBuffer, h)
  | _ => none

/-- The object, parameter name and value of a call that sets an object-valued
parameter. -/
def Call.objectParam : Call → Option (Handle × String × Handle)
  | .setObject o id v => some (o, id, v)
  | .setObjectAsData o id _ v => some (o, id, v)
  | _ => none

/-- The object on which a call stages a parameter: the target of a set call, or
the new object of a factory call that takes another object (which becomes a
parameter of the new object). -/
def Call.staged : Call → Option Handle
  | .setFloat o _ _ => some o
  | .setParam o _ _ _ => some o
  | .setObject o _ _ => some o
  | .setObjectAsData o _ _ _ => some o
  | .newGeometricModel _ h => some h
  | .newVolumetricModel _ h => some h
  | .newInstance _ h => some h
  | _ => none

/-- The object a call hands to another object: the value of an object-valued
parameter, or the object argument of a factory call. -/
def Call.handedOver : Call → Option Handle
  | .setObject _ _ v => some v
  | .setObjectAsData _ _ _ v => some v
  | .newGeometricModel g _ => some g
  | .newVolumetricModel v _ => some v
  | .newInstance g _ => some g
  | _ => none

/-- The edge of the object graph a call makes: owner and owned object. -/
def Call.edge : Call → Option (Handle × Handle)
  | .setObject o _ v => some (o, v)
  | .setObjectAsData o _ _ v => some (o, v)
  | .newGeometricModel g h => some (h, g)
  | .newVolumetricModel v h => some (h, v)
  | .newInstance g h => some (h, g)
  | _ => none

/-- The object a call commits. -/
def Call.committed : Call → Option Handle
  | .commit h => some h
  | _ => none

/-- The factory handle a call releases. -/
def Call.released : Call → Option Handle
  | .release h => some h
  | _ => none

/-- The arguments of a render call. -/
def Call.renderArgs : Call → Option (Handle × Handle × Handle × Handle)
  | .renderFrameBlocking fb r c w => some (fb, r, c, w)
  | _ => none

/-- Whether the call is `ospRenderFrameBlocking`. -/
def Call.isRender (c : Call) : Bool := c.renderArgs.isSome

/-- Whether the call is `ospResetAccumulation`. -/
def Call.isReset : Call → Bool
  | .resetAccumulation _ => true
  | _ => false

/-- Whether the call is `ospShutdown`. -/
def Call.isShutdown : Call → Bool
  | .shutdown => true
  | _ => false

/-- Whether the call sets a parameter, commits an object or resets an
accumulation. -/
def Call.changesScene (c : Call) : Bool :=
  c.staged.isSome || c.committed.isSome || c.isReset

/-- The handles of the given kind that the calls create, in order. -/
def handlesOf (k : Kind) (l : List Call) : List Handle :=
  (l.filterMap Call.created).filterMap (fun p => if p.1 = k then some p.2 else none)

/-- The kind of the object behind a handle. -/
def kindOf (l : List Call) (h : Handle) : Option Kind :=
  ((l.filterMap Call.created).find? (fun p => p.2 == h)).map (fun p => p.1)

/-- The objects with a parameter staged after their last commit. -/
def uncommitted (l : List Call) : List Handle :=
  l.foldl (fun d c =>
    match c.committed with
    | some h => d.filter (fun x => x != h)
    | none =>
      match c.staged with
      | some h => if h ∈ d then d else d ++ [h]
      | none => d) []

/-- The objects committed at least once. -/
def committedOnce (l : List Call) : List Handle := l.filterMap Call.committed

/-- How often the calls release the handle. -/
def releaseCount (h : Handle) (l : List Call) : Nat :=
  (l.filter (fun c => c.released == some h)).length

/-- The calls made before `ospShutdown`. -/
def beforeShutdown (l : List Call) : List Call := l.takeWhile (fun c => !c.isShutdown)

/-- The created objects that are not released exactly once before shutdown. -/
def notReleasedOnce (l : List Call) : List (Kind × Handle) :=
  (l.filterMap Call.created).filter (fun p => releaseCount p.2 (beforeShutdown l) != 1)

/-- The object-valued parameters set on an object: name and value. -/
def objectParams (l : List Call) (o : Handle) : List (String × Handle) :=
  l.filterMap (fun c =>
    match c.objectParam with
    | some (o', id, v) => if o' = o then some (id, v) else none
    | none => none)

/-- The objects an object owns directly. -/
def children (l : List Call) (o : Handle) : List Handle :=
  l.filterMap (fun c =>
    match c.edge with
    | some (o', v) => if o' = o then some v else none
    | none => none)

/-- Breadth-first closure of a set of objects under `children`. -/
def reach (l : List Call) : Nat → List Handle → List Handle
  | 0, hs => hs
  | n + 1, hs => reach l n (hs ++ hs.flatMap (children l)).eraseDups

/-- The objects reachable from `root`; every round of `reach` adds an object or
changes nothing, so as many rounds as there are objects suffice. -/
def reachable (l : List Call) (root : Handle) : List Handle :=
  reach l (l.filterMap Call.created).length [root]

/-- The reachable objects of a kind. -/
def reachableOf (l : List Call) (root : Handle) (k : Kind) : List Handle :=
  (reachable l root).filter (fun h => kindOf l h == some k)

/-- The 1D shared data the calls declare: array, element type and count. -/
def shared1D (l : List Call) : List (Arr × OSPDataType × Int) :=
  l.filterMap (fun c =>
    match c with
    | .newSharedData1D a t n _ => some (a, t, n)
    | _ => none)

/-- The array behind a 1D shared data handle. -/
def arrayOf (l : List Call) (h : Handle) : Option Arr :=
  l.findSome? (fun c =>
    match c with
    | .newSharedData1D a _ _ h' => if h' = h then some a else none
    | _ => none)

/-- The 3D shared data the calls declare over the file buffer. -/
structure VolumeData where
  bufferOffset : Int
  type : OSPDataType
  numItems1 : Int
  byteStride1 : Int
  numItems2 : Int
  byteStride2 : Int
  numItems3 : Int
  byteStride3 : Int
  deriving DecidableEq, Repr

/-- The 3D shared data declared by the calls. -/
def volumeData (l : List Call) : List VolumeData :=
  l.filterMap (fun c =>
    match c with
    | .newSharedData o t n1 s1 n2 s2 n3 s3 _ => some ⟨o, t, n1, s1, n2, s2, n3, s3⟩
    | _ => none)

/-- Number of elements of a 3D shared data. -/
def VolumeData.count (d : VolumeData) : Int := d.numItems1 * d.numItems2 * d.numItems3

/-- Modelled from the spec: size in bytes of one element of a scalar type (the
strides 0 of `main` stand for densely packed elements). -/
def OSPDataType.bytes : OSPDataType → Int
  | .OSP_UCHAR => 1
  | .OSP_FLOAT => 4
  | .OSP_VEC3F => 12
  | .OSP_VEC4F => 16
  | .OSP_VEC3UI => 12
  | .OSP_VOLUMETRIC_MODEL => 8
  | .OSP_INSTANCE => 8
  | .OSP_LIGHT => 8

/-- The size `fsize + 1` that `main` passes to `malloc` for a volume file of
`fsize` bytes. -/
def bufferBytes (fsize : Int) : Int := fsize + 1

/-- Whether all elements of the shared data lie inside the allocated buffer. -/
def VolumeData.inBuffer (d : VolumeData) (fsize : Int) : Prop :=
  0 ≤ d.bufferOffset ∧ d.bufferOffset + d.count * d.type.bytes ≤ bufferBytes fsize

/-- The values of a stack array, as rationals. -/
def Arr.values : Arr → List ℚ
  | .vertex => OspTutorial.vertex
  | .color => OspTutorial.color
  | .index => OspTutorial.index.map (fun n => (n : ℚ))
  | .opacity => OspTutorial.opacity
  | .tf_color => OspTutorial.tf_color

/-- The array, element type and count declared for a 1D shared data handle. -/
def dataOf (l : List Call) (h : Handle) : Option (Arr × OSPDataType × Int) :=
  l.findSome? (fun c =>
    match c with
    | .newSharedData1D a t n h' => if h' = h then some (a, t, n) else none
    | _ => none)

/-- The 1D shared data an object holds as its parameter `id`: array, element
type and count. -/
def paramData (l : List Call) (o : Handle) (id : String) : Option (Arr × OSPDataType × Int) :=
  match (objectParams l o).find? (fun p => p.1 == id) with
  | some p => dataOf l p.2
  | none => none

/-- The 3D shared data declared for a handle. -/
def volumeDataAt (l : List Call) (h : Handle) : Option VolumeData :=
  l.findSome? (fun c =>
    match c with
    | .newSharedData o t n1 s1 n2 s2 n3 s3 h' =>
      if h' = h then some ⟨o, t, n1, s1, n2, s2, n3, s3⟩ else none
    | _ => none)

/-- The triangles of the index array: consecutive triples. -/
def triangles : List Int → List (Int × Int × Int)
  | a :: b :: c :: rest => (a, b, c) :: triangles rest
  | _ => []

/-- The vertices of a triangle. -/
def corners (t : Int × Int × Int) : List Int := [t.1, t.2.1, t.2.2]

/-- The three values of colour sample `i` of `tf_color`. -/
def tfColorAt (i : Nat) : List ℚ := (tf_color.drop (3 * i)).take 3

/-- The reference function `shapes_tf` quoted in the comment above the
transfer-function tables: red, green, blue and alpha of a sample. -/
def shapes_tf (sample : ℚ) : ℚ × ℚ × ℚ × ℚ :=
  if sample > 85.0 ∧ sample ≤ 95.0 then (255.0, 30.0, 60.0, 0.02)
  else if sample > 95.0 ∧ sample ≤ 100.0 then (10.0, 60.0, 180.0, 0.3)
  else if sample > 100.0 ∧ sample < 115.0 then (90.0, 210.0, 20.0, 0.6)
  else (0, 0, 0, 0)

/-- Modelled from the spec: the domain value of sample index `i` of `N` samples
over `[min, max]`, `min + i*(max-min)/(N-1)`. -/
def domainValue (min max : ℚ) (N i : Nat) : ℚ := min + i * (max - min) / (N - 1)

/-- The colour the reference function gives to the sample value `v`, scaled
from `[0, 255]` to `[0, 1]`. -/
def referenceAt (v : ℚ) : List ℚ :=
  let c := shapes_tf v
  [c.1 / 255, c.2.1 / 255, c.2.2.1 / 255]

/-- The colour the reference function gives to sample `i` of 52 over `[0, 255]`,
scaled to `[0, 1]`. -/
def referenceColor (i : Nat) : List ℚ := referenceAt (domainValue 0 255 52 i)

/-- The accumulation counter of the frame buffer after the calls: a reset
zeroes it and a render increments it. -/
def accumulated (l : List Call) : Nat :=
  l.foldl (fun n c => if c.isReset then 0 else if c.isRender then n + 1 else n) 0

/-- The accumulation counter at each `ospMapFrameBuffer` call. -/
def countersAtMap (l : List Call) : List Nat :=
  (List.range l.length).filterMap (fun i =>
    match (l[i]? : Option Call) with
    | some (Call.mapFrameBuffer _) => some (accumulated (l.take i))
    | _ => none)

/-- The files written by `writePPM`, each with the accumulation counter at the
time of the call. -/
def framesWritten (l : List Call) : List (String × Nat) :=
  (List.range l.length).filterMap (fun i =>
    match (l[i]? : Option Call) with
    | some (Call.writePPM name _ _) => some (name, accumulated (l.take i))
    | _ => none)

/-! ## Integer tables used in the proofs

The tables of `main` hold rationals; the proofs compare them with the integer
tables below, on which the checks are computed. -/

/-- The values of `opacity`, as integers. -/
def opacityTable : List Int := List.replicate 17 0 ++ List.replicate 7 1 ++ List.replicate 28 0

/-- The values of `tf_color`, multiplied by 255. -/
def tfColorTable : List Int :=
  List.replicate 51 0 ++
    [255, 30, 60, 255, 30, 60, 10, 60, 180, 10, 60, 180, 10, 60, 180, 90, 210, 20, 90, 210, 20]
    ++ List.replicate 84 0

/-- The red, green and blue values of `shapes_tf` at an integer sample. -/
def shapesTable (sample : Int) : List Int :=
  if sample > 85 ∧ sample ≤ 95 then [255, 30, 60]
  else if sample > 95 ∧ sample ≤ 100 then [10, 60, 180]
  else if sample > 100 ∧ sample < 115 then [90, 210, 20]
  else [0, 0, 0]

/-- An integer colour value scaled from `[0, 255]` to `[0, 1]`. -/
def scale255 (n : Int) : ℚ := (n : ℚ) / 255

/-! ## Lemmas on `writePPM` -/

/-- An `int` result inside the range is kept. -/
theorem checkInt_of_bounds (r : Int) (h1 : -2147483648 ≤ r) (h2 : r ≤ 2147483647) :
    checkInt r = some r := by
  unfold checkInt INT_MIN INT_MAX
  rw [if_pos ⟨h1, h2⟩]

/-- A read at a non-negative offset inside the array yields the byte there. -/
theorem readByte_nat (mem : List Byte) (off i : Nat) (h : off + i < mem.length) :
    readByte mem (off : Int) (i : Int) = some (mem.getD (off + i) 0) := by
  unfold readByte
  have h0 : (0 : Int) ≤ (off : Int) + (i : Int) := by omega
  have h1 : ((off : Int) + (i : Int)).toNat = off + i := by omega
  rw [if_pos h0, h1, List.getD_eq_getElem?_getD, List.getElem?_eq_getElem h]
  rfl

/-- A write at an index inside the row succeeds. -/
theorem writeCell_nat (out : Row) (i : Nat) (b : Byte) (h : i < out.length) :
    writeCell out (i : Int) b = some (out.set i (some b)) := by
  unfold writeCell
  have h1 : ((i : Int)).toNat = i := by omega
  rw [h1, if_pos ⟨by omega, h⟩]

/-- One channel assignment, when no index overflows and both accesses are in
range. -/
theorem copyChannel_nat (pixel : List Byte) (off x c : Nat) (out : Row)
    (hc : c ≤ 2) (hx : 4 * x + c ≤ 2147483647) (hout : 3 * x + c < out.length)
    (hin : off + (4 * x + c) < pixel.length) :
    copyChannel pixel (off : Int) (x : Int) (c : Int) out
      = some (out.set (3 * x + c) (some (pixel.getD (off + (4 * x + c)) 0))) := by
  unfold copyChannel
  rw [checkInt_of_bounds (3 * (x : Int)) (by omega) (by omega)]
  simp only [Option.bind_eq_bind, Option.some_bind]
  rw [checkInt_of_bounds (3 * (x : Int) + c) (by omega) (by omega)]
  simp only [Option.bind_eq_bind, Option.some_bind]
  rw [checkInt_of_bounds (4 * (x : Int)) (by omega) (by omega)]
  simp only [Option.bind_eq_bind, Option.some_bind]
  rw [checkInt_of_bounds (4 * (x : Int) + c) (by omega) (by omega)]
  simp only [Option.bind_eq_bind, Option.some_bind]
  have e1 : (4 * (x : Int) + (c : Int)) = ((4 * x + c : Nat) : Int) := by push_cast; ring
  have e2 : (3 * (x : Int) + (c : Int)) = ((3 * x + c : Nat) : Int) := by push_cast; ring
  rw [e1, e2, readByte_nat pixel off (4 * x + c) hin]
  simp only [Option.bind_eq_bind, Option.some_bind]
  rw [writeCell_nat out (3 * x + c) _ hout]

/-- Overwriting the three cells that follow a prefix. -/
theorem set3_append {α : Type} (pre : List α) (a b c u v w : α) (rest : List α) :
    (((pre ++ a :: b :: c :: rest).set pre.length u).set (pre.length + 1) v).set
      (pre.length + 2) w = pre ++ u :: v :: w :: rest := by
  induction pre with
  | nil => simp
  | cons h t ih => simp [ih]

/-- A row whose cells are all written is fully initialised. -/
theorem initialised_map_some (l : List Byte) : initialised (l.map some) = some l := by
  induction l with
  | nil => rfl
  | cons h t ih => simp [initialised, ih]


/-- One pass of the inner loop body overwrites the three cells of column `x`. -/
theorem copyPixel_nat (pixel : List Byte) (off x : Nat) (pre : Row) (a b c : Option Byte)
    (rest : Row) (hpre : pre.length = 3 * x) (hx : 4 * x + 2 ≤ 2147483647)
    (hin : off + (4 * x + 2) < pixel.length) :
    copyPixel pixel (off : Int) (x : Int) (pre ++ a :: b :: c :: rest)
      = some (pre ++ some (pixel.getD (off + (4 * x + 0)) 0)
            :: some (pixel.getD (off + (4 * x + 1)) 0)
            :: some (pixel.getD (off + (4 * x + 2)) 0) :: rest) := by
  have h0 := copyChannel_nat pixel off x 0 (pre ++ a :: b :: c :: rest) (by omega) (by omega)
    (by simp; omega) (by omega)
  have h1 := fun o (ho : 3 * x + 1 < List.length o) =>
    copyChannel_nat pixel off x 1 o (by omega) (by omega) ho (by omega)
  have h2 := fun o (ho : 3 * x + 2 < List.length o) =>
    copyChannel_nat pixel off x 2 o (by omega) (by omega) ho (by omega)
  simp only [Nat.cast_zero, Nat.cast_one, Nat.cast_ofNat] at h0 h1 h2
  unfold copyPixel
  rw [h0]
  simp only [Option.bind_eq_bind, Option.some_bind]
  rw [h1 _ (by simp; omega)]
  simp only [Option.bind_eq_bind, Option.some_bind]
  rw [h2 _ (by simp; omega)]
  have := set3_append pre a b c (some (pixel.getD (off + (4 * x + 0)) 0))
    (some (pixel.getD (off + (4 * x + 1)) 0)) (some (pixel.getD (off + (4 * x + 2)) 0)) rest
  rw [hpre] at this
  rw [← this]
  rfl

/-- One pass of the inner loop. -/
theorem xLoop_succ (pixel : List Byte) (inOff size_x : Int) (fuel : Nat) (x x' : Int)
    (out out' : Row) (h : x < size_x) (h1 : copyPixel pixel inOff x out = some out')
    (h2 : checkInt (x + 1) = some x') :
    xLoop pixel inOff size_x (fuel + 1) x out = xLoop pixel inOff size_x fuel x' out' := by
  rw [xLoop, if_pos h, h1, h2]
  rfl

/-- The inner loop, entered at column `x` with the cells of the earlier columns
in `pre`, fills the rest of the row. -/
theorem xLoop_nat (pixel : List Byte) (off sx : Nat) (hsx : 4 * sx ≤ 2147483649)
    (hin : off + 4 * sx ≤ pixel.length) :
    ∀ (n x : Nat) (pre rest : Row), x + n = sx → pre.length = 3 * x → rest.length = 3 * n →
      xLoop pixel (off : Int) (sx : Int) n (x : Int) (pre ++ rest)
        = some (pre ++ ((List.range' x n).flatMap (fun x =>
            [pixel.getD (off + (4 * x + 0)) 0, pixel.getD (off + (4 * x + 1)) 0,
             pixel.getD (off + (4 * x + 2)) 0])).map some) := by
  intro n
  induction n with
  | zero =>
    intro x pre rest hx _ hrest
    have : rest = [] := List.length_eq_zero.mp (by omega)
    subst this
    unfold xLoop
    rw [if_neg (by omega)]
    simp
  | succ n ih =>
    intro x pre rest hx hpre hrest
    obtain ⟨a, b, c, rest, rfl⟩ : ∃ a b c r, rest = a :: b :: c :: r := by
      match rest, hrest with
      | a :: b :: c :: r, _ => exact ⟨a, b, c, r, rfl⟩
    have hlt : (x : Int) < (sx : Int) := by omega
    have hc : checkInt ((x : Int) + 1) = some ((x + 1 : Nat) : Int) := by
      rw [checkInt_of_bounds ((x : Int) + 1) (by omega) (by omega)]
      rfl
    have := ih (x + 1) (pre ++ [some (pixel.getD (off + (4 * x + 0)) 0),
        some (pixel.getD (off + (4 * x + 1)) 0), some (pixel.getD (off + (4 * x + 2)) 0)]) rest
        (by omega) (by simp; omega) (by simp at hrest; omega)
    simp only [List.append_assoc, List.cons_append, List.nil_append] at this
    rw [xLoop_succ pixel off sx n x _ _ _ hlt
      (copyPixel_nat pixel off x pre a b c rest hpre (by omega) (by omega)) hc, this]
    simp [List.range'_succ]


/-- One pass of the outer loop. -/
theorem yLoop_succ (pixel : List Byte) (size_x size_y : Int) (fuel : Nat) (y r1 r2 k n y' : Int)
    (out out' : Row) (file file' : List Byte) (h : y < size_y)
    (h1 : checkInt (size_y - 1) = some r1) (h2 : checkInt (r1 - y) = some r2)
    (h3 : checkInt (r2 * size_x) = some k)
    (h4 : xLoop pixel (4 * k) size_x size_x.toNat 0 out = some out')
    (h5 : checkInt (3 * size_x) = some n) (h6 : fwrite out' n file = some file')
    (h7 : checkInt (y + 1) = some y') :
    yLoop pixel size_x size_y (fuel + 1) y out file
      = yLoop pixel size_x size_y fuel y' out' file' := by
  rw [yLoop, if_pos h, h1]
  simp only [Option.bind_eq_bind, Option.some_bind]
  rw [h2]
  simp only [Option.bind_eq_bind, Option.some_bind]
  rw [h3]
  simp only [Option.bind_eq_bind, Option.some_bind]
  rw [h4, h5]
  simp only [Option.bind_eq_bind, Option.some_bind]
  rw [h6, h7]
  rfl

/-- Writing a fully initialised row appends it to the file. -/
theorem fwrite_full (l file : List Byte) :
    fwrite (l.map some) (l.length : Int) file = some (file ++ l) := by
  unfold fwrite
  have h1 : ((l.length : Int)).toNat = l.length := by omega
  rw [h1, if_pos ⟨by omega, by simp⟩]
  have h2 : List.take l.length (List.map some l) = List.map some l := by
    apply List.take_of_length_le
    simp
  rw [h2, initialised_map_some]
  rfl

/-- Length of a concatenation of blocks of equal length. -/
theorem length_flatMap_const {α : Type} (f : Nat → List α) (m : Nat)
    (h : ∀ i, (f i).length = m) (l : List Nat) : (l.flatMap f).length = l.length * m := by
  induction l with
  | nil => simp
  | cons a t ih =>
    rw [List.flatMap_cons, List.length_append, ih, h a, List.length_cons]
    ring

/-- Indexing into a concatenation of blocks of equal length. -/
theorem getElem?_flatMap_range {α : Type} (f : Nat → List α) (m : Nat)
    (h : ∀ i, (f i).length = m) (n i j : Nat) (hi : i < n) (hj : j < m) :
    ((List.range n).flatMap f)[i * m + j]? = (f i)[j]? := by
  induction n with
  | zero => omega
  | succ n ih =>
    have hlen : ((List.range n).flatMap f).length = n * m := by
      rw [length_flatMap_const f m h, List.length_range]
    rw [List.range_succ, List.flatMap_append]
    rcases Nat.lt_or_ge i n with hlt | hge
    · have hb : i * m + j < n * m := by
        calc i * m + j < i * m + m := by omega
          _ = (i + 1) * m := by ring
          _ ≤ n * m := Nat.mul_le_mul_right m hlt
      rw [List.getElem?_append_left (by rw [hlen]; exact hb)]
      exact ih hlt
    · have hin : i = n := by omega
      subst hin
      rw [List.getElem?_append_right (by rw [hlen]; omega), hlen]
      simp

/-- A pixel contributes three bytes. -/
theorem length_rgbOf (pixel : List Byte) (sx r x : Nat) : (rgbOf pixel sx r x).length = 3 := rfl

/-- An output row has `3 * size_x` bytes. -/
theorem length_rowOf (pixel : List Byte) (sx r : Nat) : (rowOf pixel sx r).length = 3 * sx := by
  unfold rowOf
  rw [length_flatMap_const _ 3 (length_rgbOf pixel sx r), List.length_range]
  ring

/-- The image body has `size_y` rows of `3 * size_x` bytes. -/
theorem length_flippedBody (pixel : List Byte) (sx sy : Nat) :
    (flippedBody pixel sx sy).length = sy * (3 * sx) := by
  unfold flippedBody
  rw [length_flatMap_const _ (3 * sx) (fun y => length_rowOf pixel sx (sy - 1 - y)),
    List.length_range]

/-- The byte of the body at row `y`, column `x`, channel `c` is byte `4 * x + c`
of input row `size_y - 1 - y`, which lies inside the pixel array. -/
theorem getElem?_flippedBody (pixel : List Byte) (sx sy y x c : Nat)
    (hlen : pixel.length = 4 * (sx * sy)) (hy : y < sy) (hx : x < sx) (hc : c < 3) :
    ∃ b, pixel[4 * ((sy - 1 - y) * sx) + (4 * x + c)]? = some b ∧
      (flippedBody pixel sx sy)[y * (3 * sx) + (3 * x + c)]? = some b := by
  have hin : 4 * ((sy - 1 - y) * sx) + (4 * x + c) < pixel.length := by
    have h1 : (sy - 1 - y) * sx + sx ≤ sy * sx := by
      calc (sy - 1 - y) * sx + sx = (sy - 1 - y + 1) * sx := by ring
        _ ≤ sy * sx := Nat.mul_le_mul_right sx (by omega)
    rw [hlen, Nat.mul_comm sx sy]
    omega
  refine ⟨pixel[4 * ((sy - 1 - y) * sx) + (4 * x + c)], List.getElem?_eq_getElem hin, ?_⟩
  unfold flippedBody
  rw [getElem?_flatMap_range _ (3 * sx) (fun y => length_rowOf pixel sx (sy - 1 - y)) sy y
    (3 * x + c) hy (by omega)]
  unfold rowOf
  rw [Nat.mul_comm 3 x, getElem?_flatMap_range _ 3 (length_rgbOf pixel sx (sy - 1 - y)) sx x c hx hc]
  unfold rgbOf pixelByte
  rw [List.getD_eq_getElem?_getD, List.getD_eq_getElem?_getD, List.getD_eq_getElem?_getD]
  interval_cases c
  · rw [List.getElem?_eq_getElem hin]; rfl
  · rw [List.getElem?_eq_getElem hin]; rfl
  · rw [List.getElem?_eq_getElem hin]; rfl

/-- The inner loop run from column 0 produces the output row of input row `r`. -/
theorem xLoop_row (pixel : List Byte) (sx r : Nat) (out : Row) (hsx : sx ≤ 536870912)
    (hin : 4 * (r * sx) + 4 * sx ≤ pixel.length) (hout : out.length = 3 * sx) :
    xLoop pixel (4 * ((r * sx : Nat) : Int)) (sx : Int) (sx : Int).toNat 0 out
      = some ((rowOf pixel sx r).map some) := by
  have h := xLoop_nat pixel (4 * (r * sx)) sx (by omega) hin sx 0 [] out (by omega) rfl hout
  have e1 : (4 * ((r * sx : Nat) : Int)) = ((4 * (r * sx) : Nat) : Int) := by push_cast; ring
  have e2 : ((sx : Int)).toNat = sx := by omega
  rw [e1, e2]
  simp only [List.nil_append, Nat.cast_zero] at h
  rw [h, rowOf, List.range_eq_range']
  rfl

/-- The outer loop, entered at row `y`, appends the remaining output rows. -/
theorem yLoop_nat (pixel : List Byte) (sx sy : Nat) (hlen : pixel.length = 4 * (sx * sy))
    (hsy : sy ≤ 2147483647) (h3 : 3 * sx ≤ 2147483647) (hsx : sx ≤ 536870912)
    (hk : (sy - 1) * sx ≤ 2147483647) :
    ∀ (n y : Nat) (out : Row) (file : List Byte), y + n = sy → out.length = 3 * sx →
      yLoop pixel (sx : Int) (sy : Int) n (y : Int) out file
        = some (file ++ (List.range' y n).flatMap (fun y => rowOf pixel sx (sy - 1 - y))) := by
  intro n
  induction n with
  | zero =>
    intro y out file hy _
    unfold yLoop
    rw [if_neg (by omega)]
    simp
  | succ n ih =>
    intro y out file hy hout
    have hr : (sy - 1 - y) * sx ≤ (sy - 1) * sx := Nat.mul_le_mul_right sx (by omega)
    have hin : 4 * ((sy - 1 - y) * sx) + 4 * sx ≤ pixel.length := by
      have h1 : (sy - 1 - y) * sx + sx ≤ sy * sx := by
        calc (sy - 1 - y) * sx + sx = (sy - 1 - y + 1) * sx := by ring
          _ ≤ sy * sx := Nat.mul_le_mul_right sx (by omega)
      rw [hlen, Nat.mul_comm sx sy]
      omega
    have c1 : checkInt ((sy : Int) - 1) = some ((sy - 1 : Nat) : Int) := by
      rw [checkInt_of_bounds _ (by omega) (by omega)]
      congr 1
      omega
    have c2 : checkInt (((sy - 1 : Nat) : Int) - (y : Int)) = some ((sy - 1 - y : Nat) : Int) := by
      rw [checkInt_of_bounds _ (by omega) (by omega)]
      congr 1
      omega
    have c3 : checkInt (((sy - 1 - y : Nat) : Int) * (sx : Int))
        = some (((sy - 1 - y) * sx : Nat) : Int) := by
      have e : ((sy - 1 - y : Nat) : Int) * (sx : Int) = (((sy - 1 - y) * sx : Nat) : Int) := by
        push_cast
        rfl
      rw [e, checkInt_of_bounds _ (by omega) (by omega)]
    have c5 : checkInt (3 * (sx : Int)) = some (((rowOf pixel sx (sy - 1 - y)).length : Nat) : Int) := by
      rw [checkInt_of_bounds _ (by omega) (by omega), length_rowOf]
      congr 1
    have c7 : checkInt ((y : Int) + 1) = some ((y + 1 : Nat) : Int) := by
      rw [checkInt_of_bounds _ (by omega) (by omega)]
      congr 1
    rw [yLoop_succ pixel sx sy n y _ _ _ _ _ out _ file _ (by omega) c1 c2 c3
      (xLoop_row pixel sx (sy - 1 - y) out hsx hin hout) c5 (fwrite_full _ file) c7,
      ih (y + 1) _ _ (by omega) (by rw [List.length_map, length_rowOf])]
    simp [List.range'_succ]

/-- C1 (as amended): for every non-negative `int` pair `size_x`, `size_y` whose
`int` arithmetic in `writePPM` does not overflow (`3 * size_x <= INT_MAX`, and
when there is at least one row also `4 * size_x - 2 <= INT_MAX` and
`(size_y - 1) * size_x <= INT_MAX`), whose scratch row of `3 * size_x` bytes
fits in the stack space left for `alloca`, and every pixel array of
`size_x * size_y` packed 4-byte pixels, when the file opens `writePPM` writes
exactly the header, then `size_y` rows of `3 * size_x` bytes in which the byte
at output row `y`, column `x`, channel `c` is byte `4 * x + c` of input row
`size_y - 1 - y`, then a single newline; every read is inside the pixel
array. -/
theorem writePPM_flips_rows (stack sx sy : Nat) (pixel : List Byte)
    (hlen : pixel.length = 4 * (sx * sy)) (hsy : (sy : Int) ≤ INT_MAX)
    (h3 : 3 * (sx : Int) ≤ INT_MAX)
    (h4 : 0 < sy → 4 * (sx : Int) - 2 ≤ INT_MAX ∧ ((sy : Int) - 1) * (sx : Int) ≤ INT_MAX)
    (hstack : 3 * sx ≤ stack) :
    writePPM stack true (sx : Int) (sy : Int) pixel
        = some (some (ppmHeader sx sy ++ flippedBody pixel sx sy ++ strBytes "\n"))
      ∧ (flippedBody pixel sx sy).length = sy * (3 * sx)
      ∧ ∀ y x c, y < sy → x < sx → c < 3 →
          ∃ b, pixel[4 * ((sy - 1 - y) * sx) + (4 * x + c)]? = some b ∧
            (flippedBody pixel sx sy)[y * (3 * sx) + (3 * x + c)]? = some b := by
  refine ⟨?_, length_flippedBody pixel sx sy, fun y x c hy hx hc =>
    getElem?_flippedBody pixel sx sy y x c hlen hy hx hc⟩
  unfold INT_MAX at hsy h3 h4
  have ha : alloca stack ((3 * sx : Nat) : Int) = some (List.replicate (3 * sx) none) := by
    unfold alloca
    rw [if_pos ⟨by omega, by omega⟩]
    congr 2
  have hc : checkInt (3 * (sx : Int)) = some ((3 * sx : Nat) : Int) := by
    rw [checkInt_of_bounds _ (by omega) (by omega)]
    congr 1
  have hy : yLoop pixel (sx : Int) (sy : Int) ((sy : Int)).toNat 0
      (List.replicate (3 * sx) none) (ppmHeader sx sy)
      = some (ppmHeader sx sy ++ flippedBody pixel sx sy) := by
    have e : ((sy : Int)).toNat = sy := by omega
    rw [e]
    rcases Nat.eq_zero_or_pos sy with h0 | hpos
    · subst h0
      unfold yLoop
      rw [if_neg (by omega)]
      simp [flippedBody]
    · obtain ⟨hsx, hk⟩ := h4 hpos
      have hk' : (sy - 1) * sx ≤ 2147483647 := by
        have e : ((sy : Int) - 1) * (sx : Int) = (((sy - 1) * sx : Nat) : Int) := by
          rw [Nat.cast_mul, Nat.cast_sub (by omega)]
          rfl
        rw [e] at hk
        exact_mod_cast hk
      have := yLoop_nat pixel sx sy hlen (by omega) (by omega) (by omega) hk' sy 0
        (List.replicate (3 * sx) none) (ppmHeader sx sy) (by omega) (by simp)
      rw [Nat.cast_zero] at this
      rw [this, flippedBody, List.range_eq_range']
  unfold writePPM writePPMFile
  rw [if_pos rfl, hc]
  simp only [Option.bind_eq_bind, Option.some_bind]
  rw [ha]
  simp only [Option.bind_eq_bind, Option.some_bind]
  rw [hy]
  rfl

/-- Witness for `writePPM_flips_rows`: a 2 x 2 image and a stack of 8 MiB; the
file is the header "P6", "2 2", "255", the second input row, the first input
row and a newline. -/
theorem writePPM_flips_rows_witness :
    writePPM 8388608 true 2 2 [1, 2, 3, 4, 5, 6, 7, 8, 9, 10, 11, 12, 13, 14, 15, 16]
        = some (some (ppmHeader 2 2
            ++ flippedBody [1, 2, 3, 4, 5, 6, 7, 8, 9, 10, 11, 12, 13, 14, 15, 16] 2 2
            ++ strBytes "\n"))
      ∧ ppmHeader 2 2
          ++ flippedBody [1, 2, 3, 4, 5, 6, 7, 8, 9, 10, 11, 12, 13, 14, 15, 16] 2 2
          ++ strBytes "\n"
        = [80, 54, 10, 50, 32, 50, 10, 50, 53, 53, 10,
           9, 10, 11, 13, 14, 15, 1, 2, 3, 5, 6, 7, 10] :=
  ⟨(writePPM_flips_rows 8388608 2 2 [1, 2, 3, 4, 5, 6, 7, 8, 9, 10, 11, 12, 13, 14, 15, 16]
    (by decide) (by decide) (by decide) (by decide) (by decide)).1, by decide⟩

/-- C1 (as stated) fails: with `size_x = 715827883`, `size_y = 0` and an empty
pixel array, `3 * size_x` exceeds `INT_MAX`, so the argument of `alloca`
overflows and the execution is undefined, even with 4 GiB of stack, more than
the row would need. -/
theorem writePPM_overflow :
    ([] : List Byte).length = 4 * (715827883 * 0) ∧ INT_MAX < 3 * 715827883 ∧
      3 * 715827883 ≤ 4294967296 ∧
      writePPM 4294967296 true 715827883 0 [] = none := by
  decide

/-- An `int` result above `INT_MAX` is undefined. -/
theorem checkInt_overflow (r : Int) (h : 2147483647 < r) : checkInt r = none := by
  unfold checkInt INT_MIN INT_MAX
  rw [if_neg (by omega)]

/-- The first channel assignment is undefined once `4 * x` overflows. -/
theorem copyChannel_overflow (pixel : List Byte) (inOff : Int) (x : Nat) (out : Row)
    (h3 : 3 * x ≤ 2147483647) (h4 : 2147483647 < 4 * x) :
    copyChannel pixel inOff (x : Int) 0 out = none := by
  unfold copyChannel
  rw [checkInt_of_bounds (3 * (x : Int)) (by omega) (by omega)]
  simp only [Option.bind_eq_bind, Option.some_bind]
  rw [checkInt_of_bounds (3 * (x : Int) + 0) (by omega) (by omega)]
  simp only [Option.bind_eq_bind, Option.some_bind]
  rw [checkInt_overflow (4 * (x : Int)) (by omega)]
  rfl

/-- A pass of the inner loop whose body is undefined. -/
theorem xLoop_succ_none (pixel : List Byte) (inOff size_x : Int) (fuel : Nat) (x : Int)
    (out : Row) (h : x < size_x) (h1 : copyPixel pixel inOff x out = none) :
    xLoop pixel inOff size_x (fuel + 1) x out = none := by
  rw [xLoop, if_pos h, h1]
  rfl

/-- The inner loop is undefined when the row is wider than `2^29` pixels: it
reaches column `2^29`, where `4 * x` overflows, unless it fails before. -/
theorem xLoop_overflow (pixel : List Byte) (inOff : Int) (sx : Nat) (hsx : 536870912 < sx) :
    ∀ (n x : Nat) (out : Row), x + n = sx → x ≤ 536870912 →
      xLoop pixel inOff (sx : Int) n (x : Int) out = none := by
  intro n
  induction n with
  | zero =>
    intro x out hx hle
    omega
  | succ n ih =>
    intro x out hx hle
    have hlt : (x : Int) < (sx : Int) := by omega
    rcases Nat.lt_or_ge x 536870912 with hsmall | hbig
    · cases hcp : copyPixel pixel inOff (x : Int) out with
      | none => exact xLoop_succ_none pixel inOff sx n x out hlt hcp
      | some o =>
        have hc : checkInt ((x : Int) + 1) = some ((x + 1 : Nat) : Int) := by
          rw [checkInt_of_bounds ((x : Int) + 1) (by omega) (by omega)]
          rfl
        rw [xLoop_succ pixel inOff sx n x _ out o hlt hcp hc]
        exact ih (x + 1) o (by omega) (by omega)
    · have hcp : copyPixel pixel inOff (x : Int) out = none := by
        unfold copyPixel
        rw [copyChannel_overflow pixel inOff x out (by omega) (by omega)]
        rfl
      exact xLoop_succ_none pixel inOff sx n x out hlt hcp

/-- The first pass of the outer loop is undefined when the row offset overflows or
the inner loop is undefined. -/
theorem yLoop_first_none (pixel : List Byte) (size_x size_y : Int) (fuel : Nat) (r1 r2 : Int)
    (out : Row) (file : List Byte) (h : 0 < size_y)
    (h1 : checkInt (size_y - 1) = some r1) (h2 : checkInt (r1 - 0) = some r2)
    (h3 : ∀ k, checkInt (r2 * size_x) = some k →
      xLoop pixel (4 * k) size_x size_x.toNat 0 out = none) :
    yLoop pixel size_x size_y (fuel + 1) 0 out file = none := by
  rw [yLoop, if_pos h, h1]
  simp only [Option.bind_eq_bind, Option.some_bind]
  rw [h2]
  simp only [Option.bind_eq_bind, Option.some_bind]
  cases hk : checkInt (r2 * size_x) with
  | none => rfl
  | some k =>
    simp only [Option.bind_eq_bind, Option.some_bind]
    rw [h3 k hk]
    rfl

/-- The conditions of `writePPM_flips_rows` on `int` overflow and on the stack
are necessary: if `3 * size_x` exceeds `INT_MAX` or the stack space left for
`alloca`, or there is a row and `4 * size_x - 2` or `(size_y - 1) * size_x`
exceeds `INT_MAX`, the execution of `writePPM` is undefined whatever the pixel
array is. -/
theorem writePPM_undefined_of_overflow (stack sx sy : Nat) (pixel : List Byte)
    (hsy : (sy : Int) ≤ INT_MAX)
    (h : INT_MAX < 3 * (sx : Int) ∨ stack < 3 * sx ∨
      (0 < sy ∧ (INT_MAX < 4 * (sx : Int) - 2 ∨ INT_MAX < ((sy : Int) - 1) * (sx : Int)))) :
    writePPM stack true (sx : Int) (sy : Int) pixel = none := by
  unfold INT_MAX at hsy h
  unfold writePPM writePPMFile
  rw [if_pos rfl]
  rcases Int.lt_or_le 2147483647 (3 * (sx : Int)) with h3 | h3
  · rw [checkInt_overflow _ h3]
    rfl
  · have hc : checkInt (3 * (sx : Int)) = some ((3 * sx : Nat) : Int) := by
      rw [checkInt_of_bounds _ (by omega) (by omega)]
      congr 1
    rcases Nat.lt_or_ge stack (3 * sx) with hst | hst
    · have ha : alloca stack ((3 * sx : Nat) : Int) = none := by
        unfold alloca
        rw [if_neg (by omega)]
      rw [hc]
      simp only [Option.bind_eq_bind, Option.some_bind]
      rw [ha]
      rfl
    · rcases h with h | h | ⟨hpos, h⟩
      · omega
      · omega
      · have ha : alloca stack ((3 * sx : Nat) : Int)
            = some (List.replicate (3 * sx) none) := by
          unfold alloca
          rw [if_pos ⟨by omega, by omega⟩]
          congr 2
        have c1 : checkInt ((sy : Int) - 1) = some ((sy : Int) - 1) :=
          checkInt_of_bounds _ (by omega) (by omega)
        have c2 : checkInt ((sy : Int) - 1 - 0) = some ((sy : Int) - 1) := by
          rw [checkInt_of_bounds _ (by omega) (by omega)]
          congr 1
          omega
        have hy : yLoop pixel (sx : Int) (sy : Int) ((sy : Int)).toNat 0
            (List.replicate (3 * sx) none) (ppmHeader sx sy) = none := by
          obtain ⟨m, hm⟩ : ∃ m, ((sy : Int)).toNat = m + 1 := ⟨sy - 1, by omega⟩
          rw [hm]
          apply yLoop_first_none pixel sx sy m _ _ _ _ (by omega) c1 c2
          intro k hk
          rcases Int.lt_or_le 2147483647 (((sy : Int) - 1) * (sx : Int)) with hov | hno
          · rw [checkInt_overflow _ hov] at hk
            exact absurd hk (by simp)
          · have hsx : 536870912 < sx := by omega
            have e : ((sx : Int)).toNat = sx := by omega
            rw [e]
            have := xLoop_overflow pixel (4 * k) sx hsx sx 0 (List.replicate (3 * sx) none)
              (by omega) (by omega)
            rw [Nat.cast_zero] at this
            exact this
        rw [hc]
        simp only [Option.bind_eq_bind, Option.some_bind]
        rw [ha]
        simp only [Option.bind_eq_bind, Option.some_bind]
        rw [hy]
        rfl

/-! ## The scene set-up of `main` -/

set_option maxRecDepth 100000

/-- The array `opacity` holds the values of `opacityTable`. -/
theorem opacity_eq_table : opacity = opacityTable.map (fun n : Int => (n : ℚ)) := by
  norm_num [opacity, opacityTable, List.replicate]

/-- The array `tf_color` holds the values of `tfColorTable` over 255. -/
theorem tf_color_eq_table : tf_color = tfColorTable.map scale255 := by
  norm_num [tf_color, tfColorTable, scale255, List.replicate]

/-- Scaling by 255 is injective. -/
theorem scale255_injective : Function.Injective scale255 := by
  intro a b h
  unfold scale255 at h
  have h255 : (255 : ℚ) ≠ 0 := by norm_num
  have := (div_left_inj' h255).mp h
  exact_mod_cast this

/-- A scaled value is non-zero exactly when the integer is. -/
theorem scale255_ne_zero (n : Int) : scale255 n ≠ 0 ↔ n ≠ 0 := by
  unfold scale255
  constructor
  · intro h hn
    apply h
    rw [hn]
    norm_num
  · intro h hn
    apply h
    have h255 : (255 : ℚ) ≠ 0 := by norm_num
    have := (div_eq_zero_iff.mp hn).resolve_right h255
    exact_mod_cast this

/-- Colour sample `i`, read from the integer table. -/
theorem tfColorAt_eq_table (i : Nat) :
    tfColorAt i = ((tfColorTable.drop (3 * i)).take 3).map scale255 := by
  rw [tfColorAt, tf_color_eq_table, List.map_take, List.map_drop]

/-- Over `[0, 255]` with 52 samples, sample `i` has domain value `5 * i`. -/
theorem domainValue_byte (i : Nat) : domainValue 0 255 52 i = ((5 * (i : Int) : Int) : ℚ) := by
  simp only [domainValue]
  push_cast
  ring

/-- The colour of `shapes_tf` at an integer sample, read from `shapesTable`. -/
theorem shapes_tf_int (n : Int) :
    [(shapes_tf (n : ℚ)).1 / 255, (shapes_tf (n : ℚ)).2.1 / 255, (shapes_tf (n : ℚ)).2.2.1 / 255]
      = (shapesTable n).map scale255 := by
  unfold shapes_tf shapesTable scale255
  have e1 : ((n : ℚ) > 85.0) ↔ (n > 85) := by
    rw [show (85.0 : ℚ) = ((85 : Int) : ℚ) by norm_num]
    exact Int.cast_lt
  have e2 : ((n : ℚ) ≤ 95.0) ↔ (n ≤ 95) := by
    rw [show (95.0 : ℚ) = ((95 : Int) : ℚ) by norm_num]
    exact Int.cast_le
  have e3 : ((n : ℚ) > 95.0) ↔ (n > 95) := by
    rw [show (95.0 : ℚ) = ((95 : Int) : ℚ) by norm_num]
    exact Int.cast_lt
  have e4 : ((n : ℚ) ≤ 100.0) ↔ (n ≤ 100) := by
    rw [show (100.0 : ℚ) = ((100 : Int) : ℚ) by norm_num]
    exact Int.cast_le
  have e5 : ((n : ℚ) > 100.0) ↔ (n > 100) := by
    rw [show (100.0 : ℚ) = ((100 : Int) : ℚ) by norm_num]
    exact Int.cast_lt
  have e6 : ((n : ℚ) < 115.0) ↔ (n < 115) := by
    rw [show (115.0 : ℚ) = ((115 : Int) : ℚ) by norm_num]
    exact Int.cast_lt
  simp only [e1, e2, e3, e4, e5, e6]
  split_ifs <;> norm_num

/-- The reference colour of sample `i`, read from `shapesTable`. -/
theorem referenceColor_eq_table (i : Nat) :
    referenceColor i = (shapesTable (5 * (i : Int))).map scale255 := by
  rw [← shapes_tf_int, referenceColor, referenceAt, domainValue_byte]

/-- The reference colour is zero only outside the open interval (85, 115). -/
theorem referenceAt_zero (v : ℚ) (h : referenceAt v = [0, 0, 0]) : v ≤ 85 ∨ 115 ≤ v := by
  unfold referenceAt shapes_tf at h
  by_contra hc
  rw [not_or, not_le, not_le] at hc
  split_ifs at h with h1 h2 h3
  · norm_num at h
  · norm_num at h
  · norm_num at h
  · norm_num at h1 h2 h3
    rcases le_or_lt v 95 with a | a
    · exact absurd a (not_le.mpr (h1 hc.1))
    · rcases le_or_lt v 100 with b | b
      · exact absurd b (not_le.mpr (h2 a))
      · exact absurd hc.2 (not_lt.mpr (h3 b))

/-- The reference colour is that of the first band only inside it. -/
theorem referenceAt_first (v : ℚ) (h : referenceAt v = [1, 30 / 255, 60 / 255]) :
    85 < v ∧ v ≤ 95 := by
  unfold referenceAt shapes_tf at h
  split_ifs at h with h1 h2 h3
  · norm_num at h1
    exact h1
  · norm_num at h
  · norm_num at h
  · norm_num at h

/-- The reference colour is that of the second band only inside it. -/
theorem referenceAt_second (v : ℚ) (h : referenceAt v = [10 / 255, 60 / 255, 180 / 255]) :
    95 < v ∧ v ≤ 100 := by
  unfold referenceAt shapes_tf at h
  split_ifs at h with h1 h2 h3
  · norm_num at h
  · norm_num at h2
    exact h2
  · norm_num at h
  · norm_num at h

/-- The colour table `tf_color` is not a sampling of `shapes_tf` on any evenly
spaced grid of sample values: whatever the first value `v0` and the spacing `d`,
some sample differs.  (Samples 18 and 19 force `0 < d`, samples 19 and 21 force
`2 * d < 5`, and then sample 16 lies inside the first band but is stored as
zero.) -/
theorem tf_color_is_no_uniform_sampling :
    ¬ ∃ v0 d : ℚ, ∀ i : Nat, i < 52 → tfColorAt i = referenceAt (v0 + i * d) := by
  rintro ⟨v0, d, h⟩
  have t16 : (tfColorTable.drop (3 * 16)).take 3 = [0, 0, 0] := by decide
  have t18 : (tfColorTable.drop (3 * 18)).take 3 = [255, 30, 60] := by decide
  have t19 : (tfColorTable.drop (3 * 19)).take 3 = [10, 60, 180] := by decide
  have t21 : (tfColorTable.drop (3 * 21)).take 3 = [10, 60, 180] := by decide
  have h16 := h 16 (by decide)
  have h18 := h 18 (by decide)
  have h19 := h 19 (by decide)
  have h21 := h 21 (by decide)
  rw [tfColorAt_eq_table, t16] at h16
  rw [tfColorAt_eq_table, t18] at h18
  rw [tfColorAt_eq_table, t19] at h19
  rw [tfColorAt_eq_table, t21] at h21
  have e16 := referenceAt_zero _ (by rw [← h16]; norm_num [scale255])
  have e18 := referenceAt_first _ (by rw [← h18]; norm_num [scale255])
  have e19 := referenceAt_second _ (by rw [← h19]; norm_num [scale255])
  have e21 := referenceAt_second _ (by rw [← h21]; norm_num [scale255])
  push_cast at e16 e18 e19 e21
  rcases e16 with e | e
  · linarith [e18.1, e18.2, e19.1, e19.2, e21.1, e21.2]
  · linarith [e18.1, e18.2, e19.1, e19.2, e21.1, e21.2]

/-- The run of `main` ends with exit code 0 when `ospInit` succeeds: the render
loop finishes within its bound. -/
theorem main_returns : ((main OSP_NO_ERROR).run { next := 0, calls := [] }).1 = some 0 := by
  decide

/-- C2: every 1D shared data buffer that `main` creates declares a shape that
agrees with its backing array (element count times component count of the
element type equals the array length), for `vertex`, `color`, `index`,
`opacity` and `tf_color`; the computed counts `elements` and `elements_col`
are both 52. -/
theorem shared_buffers_match_arrays :
    shared1D mainCalls
        = [(.vertex, .OSP_VEC3F, 4), (.color, .OSP_VEC4F, 4), (.index, .OSP_VEC3UI, 2),
           (.opacity, .OSP_FLOAT, 52), (.tf_color, .OSP_VEC3F, 52)]
      ∧ (∀ d ∈ shared1D mainCalls, d.2.2 * d.2.1.components = d.1.length)
      ∧ vertex.length = 12 ∧ color.length = 16 ∧ index.length = 6
      ∧ opacity.length = 52 ∧ tf_color.length = 156
      ∧ elements = 52 ∧ elements_col = 52 := by
  decide

/-- C3: the index array of the mesh holds only valid offsets into the
4-element vertex buffer, its length is 3 times the declared triangle count 2,
and its two triangles (0,1,2) and (1,2,3) have exactly the vertices 1 and 2,
that is one edge, in common. -/
theorem mesh_indices_valid :
    (∃ mesh dv dc di, handlesOf .geometry mainCalls = [mesh]
        ∧ objectParams mainCalls mesh
            = [("vertex.position", dv), ("vertex.color", dc), ("index", di)]
        ∧ arrayOf mainCalls dv = some .vertex ∧ arrayOf mainCalls di = some .index)
      ∧ (.vertex, .OSP_VEC3F, 4) ∈ shared1D mainCalls
      ∧ (.index, .OSP_VEC3UI, 2) ∈ shared1D mainCalls
      ∧ vertex.length = 4 * OSPDataType.components .OSP_VEC3F
      ∧ (∀ i ∈ index, 0 ≤ i ∧ i < 4)
      ∧ index.length = 3 * 2
      ∧ triangles index = [(0, 1, 2), (1, 2, 3)]
      ∧ (∀ v : Int, (v ∈ corners (0, 1, 2) ∧ v ∈ corners (1, 2, 3)) ↔ (v = 1 ∨ v = 2)) := by
  refine ⟨⟨1, 2, 3, 4, by decide⟩, by decide, by decide, by decide, by decide, by decide,
    by decide, ?_⟩
  intro v
  simp only [corners, List.mem_cons, List.mem_singleton, List.not_mem_nil, or_false]
  omega

/-- C4 (as stated) fails: for an empty volume file (`fsize = 0`) `main`
allocates one byte, and the declared 800*800*800 elements starting at byte
offset 26 do not lie inside it. -/
theorem volume_data_outside_small_buffer :
    volumeData mainCalls = [⟨26, .OSP_UCHAR, 800, 0, 800, 0, 800, 0⟩]
      ∧ bufferBytes 0 = 1
      ∧ ¬ VolumeData.inBuffer ⟨26, .OSP_UCHAR, 800, 0, 800, 0, 800, 0⟩ 0 := by
  refine ⟨by decide, by decide, ?_⟩
  simp [VolumeData.inBuffer, VolumeData.count, OSPDataType.bytes, bufferBytes]

/-- C4 (as amended): the data buffer of the volume that `main` declares holds
exactly 800*800*800 `OSP_UCHAR` elements starting at byte offset 26 of the file
buffer, and they all lie inside the `fsize + 1` allocated bytes exactly when
`fsize` is at least 512000025; `main` does not check the file size. -/
theorem volume_data_inside_buffer_iff :
    volumeData mainCalls = [⟨26, .OSP_UCHAR, 800, 0, 800, 0, 800, 0⟩]
      ∧ VolumeData.count ⟨26, .OSP_UCHAR, 800, 0, 800, 0, 800, 0⟩ = 800 * 800 * 800
      ∧ (∃ vol d, handlesOf .volume mainCalls = [vol]
          ∧ objectParams mainCalls vol = [("data", d)]
          ∧ volumeDataAt mainCalls d = some ⟨26, .OSP_UCHAR, 800, 0, 800, 0, 800, 0⟩
          ∧ d ∈ committedOnce mainCalls ∧ vol ∈ committedOnce mainCalls
          ∧ vol ∉ uncommitted mainCalls)
      ∧ ∀ fsize : Int,
          VolumeData.inBuffer ⟨26, .OSP_UCHAR, 800, 0, 800, 0, 800, 0⟩ fsize
            ↔ 512000025 ≤ fsize := by
  refine ⟨by decide, by decide, ⟨7, 8, by decide⟩, ?_⟩
  intro fsize
  simp only [VolumeData.inBuffer, VolumeData.count, OSPDataType.bytes, bufferBytes]
  omega

/-- C5 fails on the code: the handles of the volume, of the transfer function
and of the volumetric model are never passed to `ospRelease`; every other
handle that a factory call returns is released exactly once before
`ospShutdown`. -/
theorem main_leaks_volume_handles :
    (notReleasedOnce mainCalls).map (fun p => p.1)
        = [.volume, .transferFunction, .volumetricModel]
      ∧ (∀ p ∈ notReleasedOnce mainCalls, releaseCount p.2 mainCalls = 0)
      ∧ (∀ p ∈ mainCalls.filterMap Call.created,
          p ∉ notReleasedOnce mainCalls → releaseCount p.2 (beforeShutdown mainCalls) = 1)
      ∧ (mainCalls.filterMap Call.created).length = 19 := by
  decide

/-- C6: at every render call of `main` no object has a parameter staged after
its last commit, and every object handed to another object (as a parameter
value or as the argument of a factory call) had been committed, with nothing
staged since, when it was handed over. -/
theorem renders_see_committed_objects :
    (mainCalls.filter Call.isRender).length = 11
      ∧ (∀ i (h : i < mainCalls.length),
          mainCalls[i].isRender = true → uncommitted (mainCalls.take i) = [])
      ∧ (∀ i (h : i < mainCalls.length), ∀ v ∈ mainCalls[i].handedOver,
          v ∈ committedOnce (mainCalls.take i) ∧ v ∉ uncommitted (mainCalls.take i))
      ∧ (mainCalls.filterMap Call.staged).eraseDups = [0, 1, 6, 7, 9, 12, 13, 14, 15, 17]
      ∧ (mainCalls.filterMap Call.handedOver).length = 14 := by
  decide

/-- C7: `main` resets the accumulation once, before any render; the frame
buffer is mapped for firstFrame.ppm after exactly 1 render call and for
accumulatedFrame.ppm after exactly 11; every render call has the same frame
buffer, renderer, camera and world; and between the reset and the last render
no call sets a parameter, commits or resets. -/
theorem accumulation_samples_one_scene :
    ∃ fb r c w, handlesOf .frameBuffer mainCalls = [fb] ∧ handlesOf .renderer mainCalls = [r]
      ∧ handlesOf .camera mainCalls = [c] ∧ handlesOf .world mainCalls = [w]
      ∧ (mainCalls.filter Call.isReset).length = 1
      ∧ (∀ i (h : i < mainCalls.length), mainCalls[i].isReset = true →
          (mainCalls.take i).all (fun x => !x.isRender) = true)
      ∧ countersAtMap mainCalls = [1, 11]
      ∧ framesWritten mainCalls = [("firstFrame.ppm", 1), ("accumulatedFrame.ppm", 11)]
      ∧ (mainCalls.filter Call.isRender).length = 11
      ∧ (∀ x ∈ mainCalls, x.isRender = true → x.renderArgs = some (fb, r, c, w))
      ∧ (∀ i (h : i < mainCalls.length),
          (mainCalls.take i).any Call.isReset = true →
          (mainCalls.drop (i + 1)).any Call.isRender = true →
          mainCalls[i].changesScene = false) :=
  ⟨18, 17, 0, 15, by decide⟩

/-- C8: the transfer function that `main` builds and commits has exactly the
two data parameters "opacity" and "color", backed by the arrays `opacity` and
`tf_color`; both sequences are non-empty and declared with the same sample
count 52; `opacity[i]` is 1.0 for every `i` in 17..23 and 0 for every other `i`
below 52, and colour sample `i` has a non-zero component if and only if `i` is
in 17..23. -/
theorem transfer_function_control_points :
    ∃ tf aO aC vm,
      handlesOf .transferFunction mainCalls = [tf]
      ∧ (objectParams mainCalls tf).map (fun p => p.1) = ["opacity", "color"]
      ∧ paramData mainCalls tf "opacity" = some (aO, .OSP_FLOAT, 52)
      ∧ paramData mainCalls tf "color" = some (aC, .OSP_VEC3F, 52)
      ∧ aO.values = opacity ∧ aC.values = tf_color
      ∧ tf ∈ committedOnce mainCalls ∧ tf ∉ uncommitted mainCalls
      ∧ handlesOf .volumetricModel mainCalls = [vm]
      ∧ objectParams mainCalls vm = [("transferFunction", tf)]
      ∧ (.opacity, .OSP_FLOAT, 52) ∈ shared1D mainCalls
      ∧ (.tf_color, .OSP_VEC3F, 52) ∈ shared1D mainCalls
      ∧ opacity.length = 52 ∧ tf_color.length = 3 * 52
      ∧ (∀ i, i < 52 → opacity[i]? = some (if 17 ≤ i ∧ i ≤ 23 then (1.0 : ℚ) else 0))
      ∧ (∀ i, i < 52 → ((∃ v ∈ tfColorAt i, v ≠ 0) ↔ (17 ≤ i ∧ i ≤ 23))) := by
  refine ⟨9, .opacity, .tf_color, 12, by decide, by decide, by decide, by decide, rfl, rfl,
    by decide, by decide, by decide, by decide, by decide, by decide, by decide, by decide,
    ?_, ?_⟩
  · intro i hi
    have key : ∀ i, i < 52 → opacityTable[i]? = some (if 17 ≤ i ∧ i ≤ 23 then 1 else 0) := by
      decide
    rw [opacity_eq_table, List.getElem?_map, key i hi]
    split_ifs <;> norm_num
  · intro i hi
    have key : ∀ i, i < 52 →
        ((∃ n ∈ (tfColorTable.drop (3 * i)).take 3, n ≠ 0) ↔ (17 ≤ i ∧ i ≤ 23)) := by
      decide
    rw [tfColorAt_eq_table, ← key i hi]
    simp only [List.mem_map, exists_exists_and_eq_and, scale255_ne_zero]

/-- The samples at which `tf_color` holds the colour of `shapes_tf (5 * i)`
divided by 255 are exactly those other than 17, 19, 21 and 23. -/
theorem tf_color_agrees_iff (i : Nat) (hi : i < 52) :
    tfColorAt i = referenceColor i ↔ i ∉ [17, 19, 21, 23] := by
  have key : ∀ i, i < 52 → ((tfColorTable.drop (3 * i)).take 3 = shapesTable (5 * (i : Int))
      ↔ i ∉ [17, 19, 21, 23]) := by
    decide
  rw [tfColorAt_eq_table, referenceColor_eq_table, ← key i hi]
  exact (List.map_injective_iff.mpr scale255_injective).eq_iff

/-- C9 (as stated) fails: sample 17 has domain value 85, where `shapes_tf` is
zero because its first band starts above 85, but `tf_color` stores the colour
(255, 30, 60)/255 there: 17 is the first control point of the transfer
function, the first index with opacity. -/
theorem tf_color_differs_at_first_control_point :
    domainValue 0 255 52 17 = 85
      ∧ shapes_tf 85 = (0, 0, 0, 0)
      ∧ referenceColor 17 = [0, 0, 0]
      ∧ tfColorAt 17 = [255 / 255, 30 / 255, 60 / 255]
      ∧ tfColorAt 17 ≠ referenceColor 17
      ∧ opacity[17]? = some 1 := by
  have t17 : (tfColorTable.drop (3 * 17)).take 3 = [255, 30, 60] := by decide
  have r17 : shapesTable (5 * ((17 : Nat) : Int)) = [0, 0, 0] := by decide
  have o17 : opacityTable[17]? = some 1 := by decide
  refine ⟨?_, ?_, ?_, ?_, ?_, ?_⟩
  · norm_num [domainValue]
  · norm_num [shapes_tf]
  · rw [referenceColor_eq_table, r17]; norm_num [scale255]
  · rw [tfColorAt_eq_table, t17]; norm_num [scale255]
  · rw [tfColorAt_eq_table, t17, referenceColor_eq_table, r17]; norm_num [scale255]
  · rw [opacity_eq_table, List.getElem?_map, o17]; norm_num

/-- C9 (as amended): the colour table of the transfer function of `main` is the
array `tf_color`, declared with 52 samples; over the domain [0, 255] sample `i`
has domain value `5 * i`; for every `i` below 52 other than 17, 19, 21 and 23
the colour stored for sample `i` equals the colour of `shapes_tf (5 * i)`
divided by 255; and at the two boundary control points 17 and 23, where
`shapes_tf` is zero, the table holds the colour of the adjacent band, that of
`shapes_tf 90` at 17 and that of `shapes_tf 110` at 23, so that a sample has a
colour exactly when it has opacity.  Samples 19 and 21 are left open. -/
theorem tf_color_follows_shapes_tf :
    ∃ tf aC,
      handlesOf .transferFunction mainCalls = [tf]
      ∧ paramData mainCalls tf "color" = some (aC, .OSP_VEC3F, 52)
      ∧ aC.values = tf_color
      ∧ (∀ i, i < 52 → domainValue 0 255 52 i = 5 * i)
      ∧ (∀ i, i < 52 → i ∉ [17, 19, 21, 23] → tfColorAt i = referenceColor i)
      ∧ tfColorAt 17 = referenceAt 90 ∧ tfColorAt 23 = referenceAt 110
      ∧ referenceAt 90 = [255 / 255, 30 / 255, 60 / 255]
      ∧ referenceAt 110 = [90 / 255, 210 / 255, 20 / 255]
      ∧ (∀ i, i < 52 → ((∃ v ∈ tfColorAt i, v ≠ 0) ↔ opacity[i]? = some 1)) := by
  have t17 : (tfColorTable.drop (3 * 17)).take 3 = [255, 30, 60] := by decide
  have t23 : (tfColorTable.drop (3 * 23)).take 3 = [90, 210, 20] := by decide
  have r90 : referenceAt 90 = [255 / 255, 30 / 255, 60 / 255] := by
    norm_num [referenceAt, shapes_tf]
  have r110 : referenceAt 110 = [90 / 255, 210 / 255, 20 / 255] := by
    norm_num [referenceAt, shapes_tf]
  refine ⟨9, .tf_color, by decide, by decide, rfl, ?_, ?_, ?_, ?_, r90, r110, ?_⟩
  · intro i _
    simp only [domainValue]
    push_cast
    ring
  · intro i hi hne
    have key : ∀ i, i < 52 → i ∉ [17, 19, 21, 23] →
        (tfColorTable.drop (3 * i)).take 3 = shapesTable (5 * (i : Int)) := by
      decide
    rw [tfColorAt_eq_table, referenceColor_eq_table, key i hi hne]
  · rw [r90, tfColorAt_eq_table, t17]; norm_num [scale255]
  · rw [r110, tfColorAt_eq_table, t23]; norm_num [scale255]
  · intro i hi
    have key : ∀ i, i < 52 →
        ((∃ n ∈ (tfColorTable.drop (3 * i)).take 3, n ≠ 0) ↔ opacityTable[i]? = some 1) := by
      decide
    rw [tfColorAt_eq_table, opacity_eq_table, List.getElem?_map]
    have hk := key i hi
    have hcast : (Option.map (fun n : Int => (n : ℚ)) opacityTable[i]? = some 1)
        ↔ opacityTable[i]? = some 1 := by
      cases h : opacityTable[i]? with
      | none => simp
      | some n =>
        simp only [Option.map_some', Option.some.injEq]
        exact_mod_cast Iff.rfl
    rw [hcast, ← hk]
    simp only [List.mem_map, exists_exists_and_eq_and, scale255_ne_zero]

/-- C10: the geometric model of the triangle mesh is not part of the rendered
scene: the only parameter set on the group is "volume", holding the volumetric
model; the handle of the geometric model is never the value of a set-parameter
call nor the argument of a factory call before it is released (the one
set-parameter call that mentions it sets its own material, with the model as
target); and the world that `main` commits and renders reaches exactly one
model, the volumetric model, through exactly one instance, and one light. -/
theorem mesh_model_not_in_scene :
    ∃ model vol_model group inst world light mat,
      handlesOf .geometricModel mainCalls = [model]
      ∧ handlesOf .volumetricModel mainCalls = [vol_model]
      ∧ handlesOf .group mainCalls = [group]
      ∧ handlesOf .instance_ mainCalls = [inst]
      ∧ handlesOf .world mainCalls = [world]
      ∧ handlesOf .light mainCalls = [light]
      ∧ handlesOf .material mainCalls = [mat]
      ∧ (mainCalls.filter (fun c => c.staged == some group)).length = 1
      ∧ objectParams mainCalls group = [("volume", vol_model)]
      ∧ (∀ c ∈ mainCalls, c.handedOver ≠ some model)
      ∧ (mainCalls.filterMap Call.objectParam).filter
          (fun p => p.1 == model || p.2.2 == model) = [(model, "material", mat)]
      ∧ releaseCount model mainCalls = 1
      ∧ world ∈ committedOnce mainCalls
      ∧ (∀ c ∈ mainCalls, c.isRender = true →
          c.renderArgs.map (fun a => a.2.2.2) = some world)
      ∧ model ∉ reachable mainCalls world
      ∧ reachableOf mainCalls world .geometricModel = []
      ∧ reachableOf mainCalls world .volumetricModel = [vol_model]
      ∧ reachableOf mainCalls world .instance_ = [inst]
      ∧ reachableOf mainCalls world .light = [light] := by
  exact ⟨6, 12, 13, 14, 15, 16, 5, by decide⟩

end OspTutorial
